import Mathlib

/-
Verification of the session-manager / inference-gateway core of the
`python_subsystem` service (files `ollama_client.py` and `main.py`).

The embedding is a direct state-passing translation of the Python source:
  * the `chat_sessions` dict of `OllamaClient` becomes an association list
    `SessionTable` threaded through the operations;
  * Python dicts (sessions table, wire payloads) become string-keyed
    association lists with Python's assignment/spread semantics
    (`dictSet`, `dictMerge`);
  * the network call `httpx.post(url, json=payload, timeout=60)` becomes an
    oracle `Post : Params → Except String DaemonResponse`, whose `error`
    case stands for a raised transport or timeout exception and whose `ok`
    case carries the HTTP status plus the (possibly unparsable) JSON body;
  * values flowing out of the daemon's JSON body are untyped in Python, so
    transcript contents and operation results are `Json` values: the
    caller's user message enters as a JSON string, and the assistant reply
    is whatever JSON value the untyped `.get` chain extracted (a string in
    every normal run, but faithfully any value);
  * exceptions become `Except`; the two exception classes the client raises
    (`ValueError` for an unknown chat id, `RuntimeError` wrapping any
    failure of the try-block) become the `Err` inductive.
-/

namespace OllamaSuite

/-- Roles a transcript turn can carry; the Python code writes the literal
strings "system", "user" and "assistant". -/
inductive Role where
  | system
  | user
  | assistant
  deriving DecidableEq, Repr

/-- JSON-like values for daemon response bodies and transcript contents.
`jother` stands for any JSON value other than a string or an object
(number, array, bool, null), identified abstractly by a tag. -/
inductive Json where
  | jstr (s : String)
  | jobj (fields : List (String × Json))
  | jother (tag : Nat)

/-- One transcript entry, mirroring the `{"role": r, "content": c}` dicts
appended to `session["messages"]` in `ollama_client.py`. Contents are
`Json`: user and system turns always hold strings, but the assistant turn
holds whatever value the response extraction produced, as in the source. -/
structure Turn where
  role : Role
  content : Json

/-- A chat session record, mirroring the dict
`{"model": model, "messages": messages}` stored in `chat_sessions`. -/
structure Session where
  model : String
  messages : List Turn

/-- Wire-payload values: the strings, booleans and message lists the core
itself writes, plus `vopaque` for any caller-supplied parameter value
(e.g. a temperature), which the core never inspects. -/
inductive Value where
  | vstr (s : String)
  | vbool (b : Bool)
  | vmsgs (msgs : List Turn)
  | vopaque (tag : Nat)

/-- A caller-supplied `parameters` dict / a wire payload. -/
abbrev Params := List (String × Value)

/-- The `chat_sessions` dict of `OllamaClient`. -/
abbrev SessionTable := List (String × Session)

/-- Python `d[k]` / `d.get(k)`: the first binding wins (a Python dict has
unique keys, which every reachable table here preserves). -/
def dictGet {α : Type} : List (String × α) → String → Option α
  | [], _ => none
  | (k', v) :: rest, k => if k' = k then some v else dictGet rest k

/-- Python `d[k] = v`: replace the binding in place when the key is
present, append it otherwise. -/
def dictSet {α : Type} : List (String × α) → String → α → List (String × α)
  | [], k, v => [(k, v)]
  | (k', v') :: rest, k, v =>
    if k' = k then (k, v) :: rest else (k', v') :: dictSet rest k v

/-- Python `del d[k]`. -/
def dictDel {α : Type} : List (String × α) → String → List (String × α)
  | [], _ => []
  | (k', v) :: rest, k => if k' = k then dictDel rest k else (k', v) :: dictDel rest k

/-- Python `k in d`. -/
def dictMem {α : Type} (d : List (String × α)) (k : String) : Bool :=
  (dictGet d k).isSome

/-- Python dict-literal spread `{**core, **params}`: the parameter bindings
are applied left to right on top of the core dict, each overriding any
existing binding for its key. -/
def dictMerge {α : Type} (core params : List (String × α)) : List (String × α) :=
  params.foldl (fun d kv => dictSet d kv.1 kv.2) core

/-- The value of the LAST binding of `k` in `d` — the binding a Python
dict-literal keeps when keys repeat. -/
def lastVal {α : Type} (d : List (String × α)) (k : String) : Option α :=
  dictGet d.reverse k

/-- The daemon's HTTP reply as the client observes it: a status code and a
body that either parsed as JSON (`some`) or did not (`none`, the case in
which `response.json()` raises). -/
structure DaemonResponse where
  status : Nat
  body : Option Json

/-- httpx `Response.is_success`: a 2xx status. -/
def isSuccessStatus (c : Nat) : Bool :=
  decide (200 ≤ c ∧ c < 300)

/-- The detail text an httpx `HTTPStatusError` carries. -/
def statusDetail (c : Nat) : String :=
  "HTTP status error " ++ toString c

/-- httpx `response.raise_for_status()`. -/
def raiseForStatus (r : DaemonResponse) : Except String DaemonResponse :=
  if isSuccessStatus r.status then .ok r else .error (statusDetail r.status)

/-- The transport oracle standing for
`httpx.post(url, json=payload, timeout=60)`: from the JSON payload to
either a raised transport/timeout exception (carried as its text) or a
daemon response. -/
def Post : Type := Params → Except String DaemonResponse

/-- Python `obj.get(k, dflt)` on a value of unknown runtime type: returns
the field (or the default) on a dict, raises `AttributeError` on anything
else. -/
def pyGet (j : Json) (k : String) (dflt : Json) : Except String Json :=
  match j with
  | .jobj fields =>
    match dictGet fields k with
    | some v => .ok v
    | none => .ok dflt
  | _ => .error "AttributeError"

/-- `data.get("message", {}).get("content", "")` from `chat_message`:
yields whatever JSON value sits under "message"."content" (the empty
string default when a level is absent), and raises only when `data`, or a
present "message" field, is not an object. -/
def extractChatValue (data : Json) : Except String Json :=
  match pyGet data "message" (.jobj []) with
  | .error e => .error e
  | .ok m => pyGet m "content" (.jstr "")

/-- `data.get("response", "")` from `single_query`: yields whatever JSON
value sits under "response" (the empty string default when absent), and
raises only when `data` is not an object. -/
def extractGenerateValue (data : Json) : Except String Json :=
  pyGet data "response" (.jstr "")

/-- The shared body of both try-blocks: issue the post, `raise_for_status`,
`response.json()`, then extract the value. Any `error` is the exception
the Python try-block catches. -/
def pipeline (extract : Json → Except String Json) (post : Post)
    (payload : Params) : Except String Json :=
  match post payload with
  | .error t => .error t
  | .ok resp =>
    match raiseForStatus resp with
    | .error d => .error d
    | .ok r =>
      match r.body with
      | none => .error "JSONDecodeError"
      | some data => extract data

/-- The exceptions the client raises: `ValueError` for an unknown chat id
and `RuntimeError` wrapping any failure inside a try-block. -/
inductive Err where
  | sessionNotFound (chat_id : String)
  | gatewayError (detail : String)
  deriving DecidableEq, Repr

/-- Python `str(e)` as the route boundary in `main.py` renders it. -/
def errText : Err → String
  | .sessionNotFound cid => "Chat session " ++ cid ++ " not found"
  | .gatewayError d => d

/-- The core fields of the `/api/chat` payload built in `chat_message`. -/
def chatCore (model : String) (messages : List Turn) : Params :=
  [("model", .vstr model), ("messages", .vmsgs messages), ("stream", .vbool false)]

/-- The `/api/chat` payload:
`{"model": ..., "messages": ..., "stream": False, **parameters}`. -/
def chatPayload (model : String) (messages : List Turn) (parameters : Params) : Params :=
  dictMerge (chatCore model messages) parameters

/-- The core fields of the `/api/generate` payload built in `single_query`. -/
def generateCore (model prompt : String) : Params :=
  [("model", .vstr model), ("prompt", .vstr prompt), ("stream", .vbool false)]

/-- The `/api/generate` payload:
`{"model": ..., "prompt": ..., "stream": False, **parameters}`. -/
def generatePayload (model prompt : String) (parameters : Params) : Params :=
  dictMerge (generateCore model prompt) parameters

/-- Python truthiness of an optional string (`if system_prompt:` /
`if req.chat_id:`): `None` and `""` are falsy. -/
def truthy : Option String → Bool
  | none => false
  | some s => !(s == "")

/-- The messages `init_chat` seeds: exactly one system turn for a truthy
prompt. -/
def initMessages (system_prompt : Option String) : List Turn :=
  match system_prompt with
  | none => []
  | some p => if p = "" then [] else [⟨Role.system, .jstr p⟩]

/-- `OllamaClient.init_chat`: store `{"model": model, "messages": msgs}`
under the given id. -/
def init_chat (st : SessionTable) (chat_id model : String)
    (system_prompt : Option String) : SessionTable :=
  dictSet st chat_id ⟨model, initMessages system_prompt⟩

/-- `OllamaClient.chat_message`: raise for an unknown id; append the user
turn; post the chat payload; on success append the extracted value as the
assistant turn and return it; on any failure wrap it in a RuntimeError
(the user turn stays appended). -/
def chat_message (post : Post) (st : SessionTable) (chat_id message : String)
    (parameters : Params) : Except Err Json × SessionTable :=
  match dictGet st chat_id with
  | none => (.error (.sessionNotFound chat_id), st)
  | some session =>
    let msgs1 := session.messages ++ [⟨Role.user, .jstr message⟩]
    let st1 := dictSet st chat_id ⟨session.model, msgs1⟩
    match pipeline extractChatValue post (chatPayload session.model msgs1 parameters) with
    | .ok assistant_message =>
      (.ok assistant_message,
       dictSet st1 chat_id ⟨session.model, msgs1 ++ [⟨Role.assistant, assistant_message⟩]⟩)
    | .error e =>
      (.error (.gatewayError ("Ollama chat API error: " ++ e)), st1)

/-- `OllamaClient.single_query`: post the generate payload and return the
extracted value, wrapping any failure; the session table is not touched
(the Python method never reads or writes `self.chat_sessions`). -/
def single_query (post : Post) (st : SessionTable) (model instruction : String)
    (parameters : Params) : Except Err Json × SessionTable :=
  match pipeline extractGenerateValue post (generatePayload model instruction parameters) with
  | .ok s => (.ok s, st)
  | .error e => (.error (.gatewayError ("Ollama API error: " ++ e)), st)

/-- `OllamaClient.cleanup_chat`: delete the entry when present, do nothing
otherwise. -/
def cleanup_chat (st : SessionTable) (chat_id : String) : SessionTable :=
  if dictMem st chat_id then dictDel st chat_id else st

/-- The body of `POST /process` in `main.py`. -/
structure ProcessRequest where
  model : String
  instruction : String
  chat_id : Option String
  parameters : Params

/-- The reply of `POST /process` in `main.py` (the router layer's pydantic
validation of `result` is outside the core). -/
structure ProcessResponse where
  result : Option Json
  chat_id : Option String
  error : Option String

/-- The `/process` route of `main.py`: a truthy `chat_id` routes to
`chat_message`, anything else to `single_query`; exceptions are reported
in-band as `error`. -/
def process (post : Post) (st : SessionTable) (req : ProcessRequest) :
    ProcessResponse × SessionTable :=
  if truthy req.chat_id then
    match chat_message post st (req.chat_id.getD "") req.instruction req.parameters with
    | (.ok r, st') => (⟨some r, req.chat_id, none⟩, st')
    | (.error e, st') => (⟨none, req.chat_id, some (errText e)⟩, st')
  else
    match single_query post st req.model req.instruction req.parameters with
    | (.ok r, st') => (⟨some r, req.chat_id, none⟩, st')
    | (.error e, st') => (⟨none, req.chat_id, some (errText e)⟩, st')

/-- A sequence of `chat_message` calls on one session id, returning the
final table and the per-call results in call order. -/
def sendTurns (post : Post) (cid : String) :
    SessionTable → List (String × Params) → SessionTable × List (Except Err Json)
  | st, [] => (st, [])
  | st, (msg, ps) :: rest =>
    let step := chat_message post st cid msg ps
    let next := sendTurns post cid step.2 rest
    (next.1, step.1 :: next.2)

/-- The strictly alternating user/assistant block a run of successful
turns appends: each call's user message followed by that call's reply. -/
def pairTurns : List String → List Json → List Turn
  | m :: ms, r :: rs => ⟨Role.user, .jstr m⟩ :: ⟨Role.assistant, r⟩ :: pairTurns ms rs
  | _, _ => []

/-- The operations of the session manager, for whole-history statements. -/
inductive Op where
  | init (chat_id model : String) (system_prompt : Option String)
  | turn (chat_id message : String) (parameters : Params)
  | close (chat_id : String)

/-- The state effect of one operation. -/
def applyOp (post : Post) (st : SessionTable) : Op → SessionTable
  | .init cid model prompt => init_chat st cid model prompt
  | .turn cid msg ps => (chat_message post st cid msg ps).2
  | .close cid => cleanup_chat st cid

/-- Run a sequence of operations from a starting table. -/
def runOps (post : Post) : SessionTable → List Op → SessionTable
  | st, [] => st
  | st, op :: rest => runOps post (applyOp post st op) rest

/-- Whether a turn is a system turn. -/
def isSystem (t : Turn) : Bool :=
  match t.role with
  | .system => true
  | _ => false

/-- No system turn after the head: equivalently, at most one system turn
and, when present, only in first position. -/
def noTailSystem (ts : List Turn) : Bool :=
  ts.tail.all (fun t => !(isSystem t))

/-- Every stored transcript satisfies `noTailSystem`. -/
def TableOk (st : SessionTable) : Prop :=
  ∀ cid s, dictGet st cid = some s → noTailSystem s.messages = true

/-- The payload `chat_message` hands to the transport for a given table,
id, message and parameters (lines 25–33 of `ollama_client.py`), `none`
when the id is unknown. -/
def sentChatPayload (st : SessionTable) (cid msg : String) (ps : Params) : Option Params :=
  (dictGet st cid).map (fun s => chatPayload s.model (s.messages ++ [⟨Role.user, .jstr msg⟩]) ps)

/-- Whether a JSON value is text. -/
def isTextValue : Json → Bool
  | .jstr _ => true
  | _ => false

/-- A transport oracle whose daemon always answers a chat request with the
given reply text. -/
def postChatOk (reply : String) : Post :=
  fun _ => .ok ⟨200, some (.jobj [("message", .jobj [("content", .jstr reply)])])⟩

/-- A transport oracle whose daemon always answers a generate request with
the given reply text. -/
def postGenOk (reply : String) : Post :=
  fun _ => .ok ⟨200, some (.jobj [("response", .jstr reply)])⟩

/-- A transport oracle that always raises, with the given exception text. -/
def postDown (detail : String) : Post :=
  fun _ => .error detail

/-- A transport oracle whose daemon answers 200 with a parsable body whose
"message"."content" field is a non-string JSON value (e.g. a number). -/
def postNonText : Post :=
  fun _ => .ok ⟨200, some (.jobj [("message", .jobj [("content", .jother 0)])])⟩

/- ### Association-list lemmas -/

theorem dictGet_dictSet_self {α : Type} (d : List (String × α)) (k : String) (v : α) :
    dictGet (dictSet d k v) k = some v := by
  induction d with
  | nil => simp [dictSet, dictGet]
  | cons hd tl ih =>
    obtain ⟨k', v'⟩ := hd
    by_cases h : k' = k
    · simp [dictSet, dictGet, h]
    · simp [dictSet, dictGet, h, ih]

theorem dictGet_dictSet_ne {α : Type} (d : List (String × α)) (k k' : String) (v : α)
    (h : k ≠ k') : dictGet (dictSet d k v) k' = dictGet d k' := by
  induction d with
  | nil => simp [dictSet, dictGet, h]
  | cons hd tl ih =>
    obtain ⟨k₀, v₀⟩ := hd
    by_cases h₀ : k₀ = k
    · subst h₀
      simp [dictSet, dictGet, h]
    · simp [dictSet, dictGet, h₀, ih]

theorem dictSet_dictSet {α : Type} (d : List (String × α)) (k : String) (a b : α) :
    dictSet (dictSet d k a) k b = dictSet d k b := by
  induction d with
  | nil => simp [dictSet]
  | cons hd tl ih =>
    obtain ⟨k₀, v₀⟩ := hd
    by_cases h₀ : k₀ = k
    · simp [dictSet, h₀]
    · simp [dictSet, h₀, ih]

theorem dictGet_dictDel_self {α : Type} (d : List (String × α)) (k : String) :
    dictGet (dictDel d k) k = none := by
  induction d with
  | nil => simp [dictDel, dictGet]
  | cons hd tl ih =>
    obtain ⟨k₀, v₀⟩ := hd
    by_cases h₀ : k₀ = k
    · simpa [dictDel, h₀] using ih
    · simp [dictDel, dictGet, h₀, ih]

theorem dictGet_dictDel_ne {α : Type} (d : List (String × α)) (k k' : String)
    (h : k ≠ k') : dictGet (dictDel d k) k' = dictGet d k' := by
  induction d with
  | nil => simp [dictDel]
  | cons hd tl ih =>
    obtain ⟨k₀, v₀⟩ := hd
    by_cases h₀ : k₀ = k
    · subst h₀
      simp [dictDel, dictGet, h, ih]
    · simp [dictDel, dictGet, h₀, ih]

theorem dictGet_append {α : Type} (d₁ d₂ : List (String × α)) (k : String) :
    dictGet (d₁ ++ d₂) k =
      match dictGet d₁ k with
      | some v => some v
      | none => dictGet d₂ k := by
  induction d₁ with
  | nil => simp [dictGet]
  | cons hd tl ih =>
    obtain ⟨k₀, v₀⟩ := hd
    by_cases h₀ : k₀ = k
    · simp [dictGet, h₀]
    · simp [dictGet, h₀, ih]

theorem dictGet_dictMerge {α : Type} (core params : List (String × α)) (k : String) :
    dictGet (dictMerge core params) k =
      match lastVal params k with
      | some v => some v
      | none => dictGet core k := by
  induction params generalizing core with
  | nil => simp [dictMerge, lastVal, dictGet]
  | cons hd tl ih =>
    obtain ⟨k₀, v₀⟩ := hd
    have hstep : dictMerge core ((k₀, v₀) :: tl) = dictMerge (dictSet core k₀ v₀) tl := by
      simp [dictMerge]
    rw [hstep, ih]
    have hrev : lastVal ((k₀, v₀) :: tl) k =
        match lastVal tl k with
        | some v => some v
        | none => dictGet [(k₀, v₀)] k := by
      simp only [lastVal, List.reverse_cons]
      exact dictGet_append tl.reverse [(k₀, v₀)] k
    rw [hrev]
    cases htl : lastVal tl k with
    | some v => simp
    | none =>
      by_cases hk : k₀ = k
      · subst hk
        simp [dictGet, dictGet_dictSet_self]
      · simp [dictGet, hk, dictGet_dictSet_ne core k₀ k v₀ hk]

theorem dictGet_eq_none_of_keys_ne {α : Type} (d : List (String × α)) (k : String)
    (h : ∀ kv ∈ d, kv.1 ≠ k) : dictGet d k = none := by
  induction d with
  | nil => simp [dictGet]
  | cons hd tl ih =>
    obtain ⟨k₀, v₀⟩ := hd
    have h₀ : k₀ ≠ k := h (k₀, v₀) (by simp)
    simp only [dictGet, h₀, if_false]
    exact ih fun kv hkv => h kv (by simp [hkv])

theorem lastVal_eq_none_of_keys_ne {α : Type} (d : List (String × α)) (k : String)
    (h : ∀ kv ∈ d, kv.1 ≠ k) : lastVal d k = none := by
  unfold lastVal
  exact dictGet_eq_none_of_keys_ne d.reverse k fun kv hkv =>
    h kv (List.mem_reverse.mp hkv)

/- ### Shape lemmas for chat_message -/

theorem chat_message_not_found (post : Post) (st : SessionTable) (cid msg : String)
    (ps : Params) (h : dictGet st cid = none) :
    chat_message post st cid msg ps = (.error (.sessionNotFound cid), st) := by
  simp [chat_message, h]

theorem chat_message_found (post : Post) (st : SessionTable) (cid msg : String)
    (ps : Params) (s : Session) (h : dictGet st cid = some s) :
    chat_message post st cid msg ps =
      match pipeline extractChatValue post
          (chatPayload s.model (s.messages ++ [⟨Role.user, .jstr msg⟩]) ps) with
      | .ok r =>
        (.ok r, dictSet st cid
          ⟨s.model, s.messages ++ [⟨Role.user, .jstr msg⟩, ⟨Role.assistant, r⟩]⟩)
      | .error e =>
        (.error (.gatewayError ("Ollama chat API error: " ++ e)),
         dictSet st cid ⟨s.model, s.messages ++ [⟨Role.user, .jstr msg⟩]⟩) := by
  simp only [chat_message, h]
  cases hp : pipeline extractChatValue post
      (chatPayload s.model (s.messages ++ [⟨Role.user, .jstr msg⟩]) ps) with
  | ok r => simp [dictSet_dictSet]
  | error e => simp

theorem chat_message_ok_shape (post : Post) (st : SessionTable) (cid msg : String)
    (ps : Params) (s : Session) (r : Json) (st' : SessionTable)
    (hs : dictGet st cid = some s)
    (h : chat_message post st cid msg ps = (.ok r, st')) :
    st' = dictSet st cid
      ⟨s.model, s.messages ++ [⟨Role.user, .jstr msg⟩, ⟨Role.assistant, r⟩]⟩ := by
  rw [chat_message_found post st cid msg ps s hs] at h
  cases hp : pipeline extractChatValue post
      (chatPayload s.model (s.messages ++ [⟨Role.user, .jstr msg⟩]) ps) with
  | ok r' =>
    rw [hp] at h
    simp only [Prod.mk.injEq, Except.ok.injEq] at h
    obtain ⟨h1, h2⟩ := h
    subst h1
    exact h2.symm
  | error e =>
    rw [hp] at h
    simp at h

theorem chat_message_error_shape (post : Post) (st : SessionTable) (cid msg : String)
    (ps : Params) (s : Session) (e : Err) (st' : SessionTable)
    (hs : dictGet st cid = some s)
    (h : chat_message post st cid msg ps = (.error e, st')) :
    (∃ d, e = .gatewayError ("Ollama chat API error: " ++ d))
    ∧ st' = dictSet st cid ⟨s.model, s.messages ++ [⟨Role.user, .jstr msg⟩]⟩ := by
  rw [chat_message_found post st cid msg ps s hs] at h
  cases hp : pipeline extractChatValue post
      (chatPayload s.model (s.messages ++ [⟨Role.user, .jstr msg⟩]) ps) with
  | ok r' =>
    rw [hp] at h
    simp at h
  | error d =>
    rw [hp] at h
    simp only [Prod.mk.injEq, Except.error.injEq] at h
    obtain ⟨h1, h2⟩ := h
    exact ⟨⟨d, h1.symm⟩, h2.symm⟩

/- ### Lemmas about runs of turns -/

theorem sendTurns_length (post : Post) (cid : String) (calls : List (String × Params)) :
    ∀ st : SessionTable, ((sendTurns post cid st calls).2).length = calls.length := by
  induction calls with
  | nil => intro st; simp [sendTurns]
  | cons hd tl ih =>
    intro st
    obtain ⟨msg, ps⟩ := hd
    simp [sendTurns, ih]

theorem sendTurns_ok_shape (post : Post) (cid : String)
    (calls : List (String × Params)) (replies : List Json) :
    ∀ (st : SessionTable) (s : Session),
      dictGet st cid = some s →
      (sendTurns post cid st calls).2 = replies.map Except.ok →
      dictGet (sendTurns post cid st calls).1 cid =
        some ⟨s.model, s.messages ++ pairTurns (calls.map Prod.fst) replies⟩ := by
  induction calls generalizing replies with
  | nil =>
    intro st s hs h
    simp only [sendTurns] at h ⊢
    have : replies = [] := by
      cases replies with
      | nil => rfl
      | cons a l => simp at h
    subst this
    simpa [pairTurns] using hs
  | cons hd tl ih =>
    intro st s hs h
    obtain ⟨msg, ps⟩ := hd
    simp only [sendTurns] at h ⊢
    cases replies with
    | nil => simp at h
    | cons rep reps =>
      simp only [List.map_cons, List.cons.injEq] at h
      obtain ⟨h1, h2⟩ := h
      have hst1 := chat_message_ok_shape post st cid msg ps s rep
        (chat_message post st cid msg ps).2 hs (by rw [← h1])
      have hget1 : dictGet (chat_message post st cid msg ps).2 cid =
          some ⟨s.model,
            s.messages ++ [⟨Role.user, .jstr msg⟩, ⟨Role.assistant, rep⟩]⟩ := by
        rw [hst1, dictGet_dictSet_self]
      have := ih reps (chat_message post st cid msg ps).2
        ⟨s.model, s.messages ++ [⟨Role.user, .jstr msg⟩, ⟨Role.assistant, rep⟩]⟩ hget1 h2
      simpa [pairTurns, List.append_assoc] using this

/- ### Lemmas about the system-turn invariant -/

theorem noTailSystem_append (ts xs : List Turn)
    (h1 : noTailSystem ts = true) (h2 : ∀ x ∈ xs, isSystem x = false) :
    noTailSystem (ts ++ xs) = true := by
  cases ts with
  | nil =>
    simp only [List.nil_append, noTailSystem, List.all_eq_true, Bool.not_eq_true'] at h1 ⊢
    intro x hx
    exact h2 x (List.mem_of_mem_tail hx)
  | cons t ts' =>
    simp only [noTailSystem, List.cons_append, List.tail_cons, List.all_append,
      List.all_eq_true, Bool.and_eq_true, Bool.not_eq_true'] at h1 ⊢
    exact ⟨h1, fun x hx => h2 x hx⟩

theorem noTailSystem_initMessages (prompt : Option String) :
    noTailSystem (initMessages prompt) = true := by
  cases prompt with
  | none => simp [initMessages, noTailSystem]
  | some p =>
    by_cases h : p = ""
    · simp [initMessages, h, noTailSystem]
    · simp [initMessages, h, noTailSystem]

theorem tableOk_init_chat (st : SessionTable) (cid model : String)
    (prompt : Option String) (h : TableOk st) :
    TableOk (init_chat st cid model prompt) := by
  intro k s hk
  by_cases hkc : cid = k
  · subst hkc
    rw [init_chat, dictGet_dictSet_self] at hk
    cases hk
    exact noTailSystem_initMessages prompt
  · rw [init_chat, dictGet_dictSet_ne st cid k _ hkc] at hk
    exact h k s hk

theorem tableOk_chat_message (post : Post) (st : SessionTable) (cid msg : String)
    (ps : Params) (h : TableOk st) :
    TableOk ((chat_message post st cid msg ps).2) := by
  cases hs : dictGet st cid with
  | none =>
    rw [chat_message_not_found post st cid msg ps hs]
    exact h
  | some s =>
    have hms := h cid s hs
    rw [chat_message_found post st cid msg ps s hs]
    cases hp : pipeline extractChatValue post
        (chatPayload s.model (s.messages ++ [⟨Role.user, .jstr msg⟩]) ps) with
    | ok r =>
      intro k s' hk
      by_cases hkc : cid = k
      · subst hkc
        simp only [dictGet_dictSet_self] at hk
        cases hk
        exact noTailSystem_append _ _ hms
          (by intro x hx; simp at hx; rcases hx with h | h <;> simp [h, isSystem])
      · simp only [dictGet_dictSet_ne st cid k _ hkc] at hk
        exact h k s' hk
    | error e =>
      intro k s' hk
      by_cases hkc : cid = k
      · subst hkc
        simp only [dictGet_dictSet_self] at hk
        cases hk
        exact noTailSystem_append _ _ hms
          (by intro x hx; simp at hx; simp [hx, isSystem])
      · simp only [dictGet_dictSet_ne st cid k _ hkc] at hk
        exact h k s' hk

theorem tableOk_cleanup_chat (st : SessionTable) (cid : String) (h : TableOk st) :
    TableOk (cleanup_chat st cid) := by
  intro k s hk
  unfold cleanup_chat at hk
  by_cases hm : dictMem st cid
  · rw [if_pos hm] at hk
    by_cases hkc : cid = k
    · subst hkc
      rw [dictGet_dictDel_self] at hk
      cases hk
    · rw [dictGet_dictDel_ne st cid k hkc] at hk
      exact h k s hk
  · rw [if_neg hm] at hk
    exact h k s hk

theorem tableOk_runOps (post : Post) (ops : List Op) :
    ∀ st : SessionTable, TableOk st → TableOk (runOps post st ops) := by
  induction ops with
  | nil => intro st h; exact h
  | cons op rest ih =>
    intro st h
    refine ih (applyOp post st op) ?_
    cases op with
    | init cid model prompt => exact tableOk_init_chat st cid model prompt h
    | turn cid msg ps => exact tableOk_chat_message post st cid msg ps h
    | close cid => exact tableOk_cleanup_chat st cid h

/-- A turn operation only ever appends non-system turns to any stored
transcript: the session acted on gains its user turn (and, on success, the
assistant turn), every other session is untouched. -/
theorem chat_message_appends_no_system (post : Post) (st : SessionTable)
    (cid msg : String) (ps : Params) (k : String) (s s' : Session)
    (hk : dictGet st k = some s)
    (hk' : dictGet ((chat_message post st cid msg ps).2) k = some s') :
    ∃ new, s'.messages = s.messages ++ new ∧ ∀ t ∈ new, isSystem t = false := by
  cases hs : dictGet st cid with
  | none =>
    rw [chat_message_not_found post st cid msg ps hs] at hk'
    rw [hk] at hk'
    cases hk'
    exact ⟨[], by simp⟩
  | some s0 =>
    rw [chat_message_found post st cid msg ps s0 hs] at hk'
    by_cases hkc : cid = k
    · subst hkc
      have hss : s0 = s := Option.some.inj (hs.symm.trans hk)
      subst hss
      cases hp : pipeline extractChatValue post
          (chatPayload s0.model (s0.messages ++ [⟨Role.user, .jstr msg⟩]) ps) with
      | ok r =>
        rw [hp, dictGet_dictSet_self] at hk'
        cases hk'
        exact ⟨[⟨Role.user, .jstr msg⟩, ⟨Role.assistant, r⟩], rfl,
          by intro t ht; simp at ht; rcases ht with h | h <;> simp [h, isSystem]⟩
      | error e =>
        rw [hp, dictGet_dictSet_self] at hk'
        cases hk'
        exact ⟨[⟨Role.user, .jstr msg⟩], rfl,
          by intro t ht; simp at ht; simp [ht, isSystem]⟩
    · cases hp : pipeline extractChatValue post
          (chatPayload s0.model (s0.messages ++ [⟨Role.user, .jstr msg⟩]) ps) with
      | ok r =>
        rw [hp, dictGet_dictSet_ne st cid k _ hkc, hk] at hk'
        cases hk'
        exact ⟨[], by simp⟩
      | error e =>
        rw [hp, dictGet_dictSet_ne st cid k _ hkc, hk] at hk'
        cases hk'
        exact ⟨[], by simp⟩

/- ### Pipeline and projection lemmas -/

theorem pipeline_transport (ex : Json → Except String Json) (post : Post)
    (payload : Params) (t : String) (h : post payload = .error t) :
    pipeline ex post payload = .error t := by
  simp [pipeline, h]

theorem pipeline_status (ex : Json → Except String Json) (post : Post)
    (payload : Params) (resp : DaemonResponse) (h : post payload = .ok resp)
    (hst : isSuccessStatus resp.status = false) :
    pipeline ex post payload = .error (statusDetail resp.status) := by
  simp [pipeline, h, raiseForStatus, hst]

theorem pipeline_nojson (ex : Json → Except String Json) (post : Post)
    (payload : Params) (resp : DaemonResponse) (h : post payload = .ok resp)
    (hst : isSuccessStatus resp.status = true) (hb : resp.body = none) :
    pipeline ex post payload = .error "JSONDecodeError" := by
  simp [pipeline, h, raiseForStatus, hst, hb]

theorem pipeline_extract (ex : Json → Except String Json) (post : Post)
    (payload : Params) (resp : DaemonResponse) (data : Json)
    (h : post payload = .ok resp) (hst : isSuccessStatus resp.status = true)
    (hb : resp.body = some data) :
    pipeline ex post payload = ex data := by
  simp [pipeline, h, raiseForStatus, hst, hb]

theorem single_query_snd (post : Post) (st : SessionTable) (model instruction : String)
    (ps : Params) : (single_query post st model instruction ps).2 = st := by
  unfold single_query
  cases hp : pipeline extractGenerateValue post (generatePayload model instruction ps) with
  | ok s => simp
  | error e => simp

theorem single_query_fst (post : Post) (st : SessionTable) (model instruction : String)
    (ps : Params) :
    (single_query post st model instruction ps).1 =
      match pipeline extractGenerateValue post (generatePayload model instruction ps) with
      | .ok s => .ok s
      | .error e => .error (.gatewayError ("Ollama API error: " ++ e)) := by
  unfold single_query
  cases hp : pipeline extractGenerateValue post (generatePayload model instruction ps) with
  | ok s => simp
  | error e => simp

theorem chat_message_fst (post : Post) (st : SessionTable) (cid msg : String)
    (ps : Params) (s : Session) (hs : dictGet st cid = some s) :
    (chat_message post st cid msg ps).1 =
      match pipeline extractChatValue post
          (chatPayload s.model (s.messages ++ [⟨Role.user, .jstr msg⟩]) ps) with
      | .ok r => .ok r
      | .error e => .error (.gatewayError ("Ollama chat API error: " ++ e)) := by
  rw [chat_message_found post st cid msg ps s hs]
  cases hp : pipeline extractChatValue post
      (chatPayload s.model (s.messages ++ [⟨Role.user, .jstr msg⟩]) ps) with
  | ok r => simp
  | error e => simp

/- ### Length lemmas -/

theorem initMessages_length (prompt : Option String) :
    (initMessages prompt).length = if truthy prompt then 1 else 0 := by
  cases prompt with
  | none => simp [initMessages, truthy]
  | some p =>
    by_cases h : p = ""
    · simp [initMessages, truthy, h]
    · simp [initMessages, truthy, h]

theorem pairTurns_length (ms : List String) (rs : List Json) (h : ms.length = rs.length) :
    (pairTurns ms rs).length = 2 * ms.length := by
  induction ms generalizing rs with
  | nil => simp [pairTurns]
  | cons m ms' ih =>
    cases rs with
    | nil => simp at h
    | cons r rs' =>
      simp only [List.length_cons, Nat.add_right_cancel_iff] at h
      simp [pairTurns, ih rs' h, Nat.mul_add]

/- ### Claim theorems -/

/-- C1: for every session created by `init_chat` and every sequence of N
`chat_message` calls on it that all succeed, the stored transcript is the
seeded system turns followed by the strictly alternating user/assistant
block `pairTurns`, pairing each call's user message with that call's reply
in call order, and its length is `(1 if a system turn was created else 0)
+ 2 * N`. -/
theorem C1_transcript_after_successful_turns (post : Post) (st : SessionTable)
    (cid model : String) (prompt : Option String)
    (calls : List (String × Params)) (replies : List Json)
    (h : (sendTurns post cid (init_chat st cid model prompt) calls).2
          = replies.map Except.ok) :
    dictGet (sendTurns post cid (init_chat st cid model prompt) calls).1 cid =
      some ⟨model, initMessages prompt ++ pairTurns (calls.map Prod.fst) replies⟩
    ∧ (initMessages prompt ++ pairTurns (calls.map Prod.fst) replies).length =
        (if truthy prompt then 1 else 0) + 2 * calls.length := by
  have hs : dictGet (init_chat st cid model prompt) cid
      = some ⟨model, initMessages prompt⟩ := by
    rw [init_chat, dictGet_dictSet_self]
  have hlenrep : calls.length = replies.length := by
    have := sendTurns_length post cid calls (init_chat st cid model prompt)
    rw [h] at this
    simpa using this.symm
  constructor
  · exact sendTurns_ok_shape post cid calls replies (init_chat st cid model prompt)
      ⟨model, initMessages prompt⟩ hs h
  · rw [List.length_append, initMessages_length,
      pairTurns_length (calls.map Prod.fst) replies (by simpa using hlenrep)]
    simp

/-- Witness for C1 at a concrete run: one successful turn on a session
with no system prompt yields the transcript `[user "hi", assistant
"hello"]`. -/
theorem C1_witness :
    dictGet (sendTurns (postChatOk "hello") "X" (init_chat [] "X" "m" none)
        [("hi", [])]).1 "X"
      = some ⟨"m", [⟨Role.user, .jstr "hi"⟩, ⟨Role.assistant, .jstr "hello"⟩]⟩ := by
  have h := C1_transcript_after_successful_turns (postChatOk "hello") [] "X" "m" none
    [("hi", [])] [.jstr "hello"] rfl
  exact h.1

/-- C5: starting from any table whose transcripts have no system turn
after the head, (a) any sequence of create / turn / close operations
preserves that shape, so every stored transcript has at most one system
turn and only in first position; (b) no operation after creation ever
inserts a system turn: a `chat_message` call only ever APPENDS turns to a
stored transcript and every appended turn is non-system, and
`cleanup_chat` leaves every surviving transcript exactly as it was. -/
theorem C5_system_turn_invariant (post : Post) (st : SessionTable) (ops : List Op)
    (h : TableOk st) :
    TableOk (runOps post st ops)
    ∧ (∀ cid msg ps k s s', dictGet st k = some s →
        dictGet ((chat_message post st cid msg ps).2) k = some s' →
        ∃ new, s'.messages = s.messages ++ new ∧ ∀ t ∈ new, isSystem t = false)
    ∧ (∀ cid k s s', dictGet st k = some s →
        dictGet (cleanup_chat st cid) k = some s' → s' = s) := by
  refine ⟨tableOk_runOps post ops st h, ?_, ?_⟩
  · intro cid msg ps k s s' hk hk'
    exact chat_message_appends_no_system post st cid msg ps k s s' hk hk'
  · intro cid k s s' hk hk'
    unfold cleanup_chat at hk'
    by_cases hm : dictMem st cid
    · rw [if_pos hm] at hk'
      by_cases hkc : cid = k
      · subst hkc
        rw [dictGet_dictDel_self] at hk'
        cases hk'
      · rw [dictGet_dictDel_ne st cid k hkc, hk] at hk'
        cases hk'
        rfl
    · rw [if_neg hm, hk] at hk'
      cases hk'
      rfl

/-- Witness for C5: after a create with system prompt and a successful
turn, the stored transcript still has its only system turn first. -/
theorem C5_witness :
    noTailSystem [⟨Role.system, .jstr "s"⟩, ⟨Role.user, .jstr "hi"⟩,
      ⟨Role.assistant, .jstr "hello"⟩] = true := by
  have h := C5_system_turn_invariant (postChatOk "hello") []
    [Op.init "X" "m" (some "s"), Op.turn "X" "hi" []]
    (by intro cid s hk; simp [dictGet] at hk)
  exact h.1 "X" ⟨"m", [⟨Role.system, .jstr "s"⟩, ⟨Role.user, .jstr "hi"⟩,
    ⟨Role.assistant, .jstr "hello"⟩]⟩ rfl

/-- C7: closing a freshly created id makes it unknown again, and
`chat_message` on it fails with the not-found error exactly as on any id
the table does not contain, leaving the table untouched. -/
theorem C7_closed_id_is_unknown (post : Post) (st : SessionTable)
    (cid model msg : String) (prompt : Option String) (ps : Params) :
    dictGet (cleanup_chat (init_chat st cid model prompt) cid) cid = none
    ∧ chat_message post (cleanup_chat (init_chat st cid model prompt) cid) cid msg ps
        = (.error (.sessionNotFound cid), cleanup_chat (init_chat st cid model prompt) cid)
    ∧ ∀ st₂ : SessionTable, dictGet st₂ cid = none →
        chat_message post st₂ cid msg ps = (.error (.sessionNotFound cid), st₂) := by
  have hmem : dictMem (init_chat st cid model prompt) cid = true := by
    rw [dictMem, init_chat, dictGet_dictSet_self]
    rfl
  have hnone : dictGet (cleanup_chat (init_chat st cid model prompt) cid) cid = none := by
    rw [cleanup_chat, if_pos hmem]
    exact dictGet_dictDel_self _ cid
  exact ⟨hnone, chat_message_not_found post _ cid msg ps hnone,
    fun st₂ h₂ => chat_message_not_found post st₂ cid msg ps h₂⟩

/-- Witness for C7: `chat_message` on the empty table fails with the
not-found error. -/
theorem C7_witness :
    chat_message (postDown "boom") [] "X" "hi" []
      = (.error (.sessionNotFound "X"), []) := by
  have h := C7_closed_id_is_unknown (postDown "boom") [] "X" "m" "hi" none []
  exact h.2.2 [] rfl

/-- C8: `cleanup_chat` (a total function, so it raises nothing) leaves no
entry for the id, leaves every other id's entry unchanged, and applying it
twice gives the same table as applying it once. -/
theorem C8_cleanup_idempotent (st : SessionTable) (cid : String) :
    dictGet (cleanup_chat st cid) cid = none
    ∧ (∀ k, k ≠ cid → dictGet (cleanup_chat st cid) k = dictGet st k)
    ∧ cleanup_chat (cleanup_chat st cid) cid = cleanup_chat st cid := by
  by_cases hm : dictMem st cid = true
  · have hc : cleanup_chat st cid = dictDel st cid := by
      rw [cleanup_chat, if_pos hm]
    refine ⟨?_, ?_, ?_⟩
    · rw [hc]
      exact dictGet_dictDel_self st cid
    · intro k hk
      rw [hc]
      exact dictGet_dictDel_ne st cid k (fun he => hk he.symm)
    · have hm2 : dictMem (dictDel st cid) cid = false := by
        rw [dictMem, dictGet_dictDel_self]
        rfl
      rw [hc, cleanup_chat, hm2]
      simp
  · have hnone : dictGet st cid = none := by
      rw [dictMem] at hm
      cases hg : dictGet st cid with
      | none => rfl
      | some s => rw [hg] at hm; simp at hm
    have hc : cleanup_chat st cid = st := by
      rw [cleanup_chat, if_neg hm]
    refine ⟨?_, ?_, ?_⟩
    · rw [hc]; exact hnone
    · intro k _; rw [hc]
    · rw [hc, hc]

/-- Witness for C8: deleting "X" leaves the entry for "Y" untouched. -/
theorem C8_witness :
    dictGet (cleanup_chat [("X", (⟨"m", []⟩ : Session))] "X") "Y"
      = dictGet [("X", (⟨"m", []⟩ : Session))] "Y" :=
  (C8_cleanup_idempotent [("X", ⟨"m", []⟩)] "X").2.1 "Y" (by decide)

/-- C9: `single_query` returns the session table exactly as it was (the
method never reads or writes `chat_sessions`), and so does the `/process`
route whenever it takes the stateless branch, whether the gateway call
succeeds or fails. -/
theorem C9_stateless_frame (post : Post) (st : SessionTable)
    (model instruction : String) (ps : Params) :
    (single_query post st model instruction ps).2 = st
    ∧ ∀ req : ProcessRequest, truthy req.chat_id = false →
        (process post st req).2 = st := by
  refine ⟨single_query_snd post st model instruction ps, ?_⟩
  intro req h
  have hsq := single_query_snd post st req.model req.instruction req.parameters
  simp only [process, h, Bool.false_eq_true, if_false]
  cases hq : single_query post st req.model req.instruction req.parameters with
  | mk r st' =>
    rw [hq] at hsq
    cases r with
    | ok v => simpa using hsq
    | error e => simpa using hsq

/-- Witness for C9: a stateless `/process` request leaves a one-entry
table unchanged. -/
theorem C9_witness :
    (process (postGenOk "4") [("X", (⟨"m", []⟩ : Session))]
        ⟨"m", "2+2?", none, []⟩).2
      = [("X", (⟨"m", []⟩ : Session))] :=
  (C9_stateless_frame (postGenOk "4") [("X", ⟨"m", []⟩)] "m" "2+2?" []).2
    ⟨"m", "2+2?", none, []⟩ rfl

/-- C10: `init_chat` with the empty-string prompt behaves exactly like
`init_chat` with no prompt: the stored transcript is empty, because only a
truthy prompt produces a system turn. -/
theorem C10_empty_prompt_no_system_turn (st : SessionTable) (cid model : String) :
    init_chat st cid model (some "") = init_chat st cid model none
    ∧ dictGet (init_chat st cid model (some "")) cid = some ⟨model, []⟩ := by
  have hempty : initMessages (some "") = [] := by simp [initMessages]
  constructor
  · rw [init_chat, init_chat, hempty]
    rfl
  · rw [init_chat, hempty, dictGet_dictSet_self]

/-- C2: when the gateway pipeline fails inside `chat_message` on an
existing session, the call returns a gateway error, the transcript keeps
exactly the one new unanswered user turn, every other session is
untouched, and a subsequent call on the same session hands the transport a
payload built from the full transcript including that unanswered user
turn; if that subsequent call succeeds, the unanswered turn stays in the
stored history before the new pair. -/
theorem C2_failure_keeps_user_turn (post : Post) (st : SessionTable)
    (cid msg msg2 : String) (ps ps2 : Params) (s : Session) (e : Err)
    (st' : SessionTable) (hs : dictGet st cid = some s)
    (h : chat_message post st cid msg ps = (.error e, st')) :
    (∃ d, e = .gatewayError d)
    ∧ dictGet st' cid = some ⟨s.model, s.messages ++ [⟨Role.user, .jstr msg⟩]⟩
    ∧ (∀ k, k ≠ cid → dictGet st' k = dictGet st k)
    ∧ sentChatPayload st' cid msg2 ps2 =
        some (chatPayload s.model
          ((s.messages ++ [⟨Role.user, .jstr msg⟩]) ++ [⟨Role.user, .jstr msg2⟩]) ps2)
    ∧ (∀ r st'', chat_message post st' cid msg2 ps2 = (.ok r, st'') →
        dictGet st'' cid =
          some ⟨s.model,
            ((s.messages ++ [⟨Role.user, .jstr msg⟩]) ++ [⟨Role.user, .jstr msg2⟩])
              ++ [⟨Role.assistant, r⟩]⟩) := by
  obtain ⟨⟨d, hd⟩, hst'⟩ := chat_message_error_shape post st cid msg ps s e st' hs h
  have hget : dictGet st' cid
      = some ⟨s.model, s.messages ++ [⟨Role.user, .jstr msg⟩]⟩ := by
    rw [hst', dictGet_dictSet_self]
  refine ⟨⟨"Ollama chat API error: " ++ d, hd⟩, hget, ?_, ?_, ?_⟩
  · intro k hk
    rw [hst']
    exact dictGet_dictSet_ne st cid k _ (fun he => hk he.symm)
  · simp [sentChatPayload, hget]
  · intro r st'' h2
    have hshape := chat_message_ok_shape post st' cid msg2 ps2
      ⟨s.model, s.messages ++ [⟨Role.user, .jstr msg⟩]⟩ r st'' hget h2
    rw [hshape, dictGet_dictSet_self]
    simp

/-- Witness for C2: a transport failure on a fresh session leaves exactly
the unanswered user turn in the transcript. -/
theorem C2_witness :
    dictGet [("X", (⟨"m", [⟨Role.user, .jstr "hi"⟩]⟩ : Session))] "X"
      = some ⟨"m", [] ++ [⟨Role.user, .jstr "hi"⟩]⟩ := by
  have h := C2_failure_keeps_user_turn (postDown "boom") [("X", ⟨"m", []⟩)]
    "X" "hi" "again" [] [] ⟨"m", []⟩
    (.gatewayError "Ollama chat API error: boom")
    [("X", ⟨"m", [⟨Role.user, .jstr "hi"⟩]⟩)] rfl rfl
  exact h.2.1

/-- C3 as stated is false: the Python payloads spread `**parameters` LAST,
so a caller-supplied "model", "messages"/"prompt" or "stream" key
overrides the core's value. Concrete counterexample: with
`parameters = {"model": "x"}` the chat payload carries model "x", not the
core's "m"; likewise "stream" and "messages" are overridable. -/
theorem C3_counterexample :
    dictGet (chatPayload "m" [] [("model", Value.vstr "x")]) "model"
      = some (Value.vstr "x")
    ∧ dictGet (chatPayload "m" [] [("model", Value.vstr "x")]) "model"
      ≠ some (Value.vstr "m")
    ∧ dictGet (generatePayload "m" "p" [("stream", Value.vbool true)]) "stream"
      = some (Value.vbool true)
    ∧ dictGet (chatPayload "m" [⟨Role.user, .jstr "hi"⟩] [("messages", Value.vmsgs [])])
        "messages" = some (Value.vmsgs []) := by
  refine ⟨rfl, ?_, rfl, rfl⟩
  intro h
  have hc : dictGet (chatPayload "m" [] [("model", Value.vstr "x")]) "model"
      = some (Value.vstr "x") := rfl
  rw [hc] at h
  have h1 : Value.vstr "x" = Value.vstr "m" := Option.some.inj h
  have h2 : "x" = "m" := by injection h1
  exact absurd h2 (by decide)

/-- C3 amended: caller-supplied parameter keys shadow EVERY core payload
field, including "model", "prompt"/"messages" and "stream": for any key,
the built payload carries the last parameter binding when one exists and
the core's value otherwise. -/
theorem C3_amended_parameters_shadow_all (model prompt : String)
    (msgs : List Turn) (ps : Params) (k : String) :
    dictGet (chatPayload model msgs ps) k =
      (match lastVal ps k with
       | some v => some v
       | none => dictGet (chatCore model msgs) k)
    ∧ dictGet (generatePayload model prompt ps) k =
      (match lastVal ps k with
       | some v => some v
       | none => dictGet (generateCore model prompt) k) := by
  unfold chatPayload generatePayload
  refine ⟨?_, ?_⟩ <;> rw [dictGet_dictMerge] <;> cases lastVal ps k <;> rfl

/-- C4: the model fixed at creation stays bound to the session —
`chat_message` never changes the stored model, the `/process` route
ignores the request-body model whenever a truthy chat id routes the call
to a session turn, and (absent a colliding "model" parameter key) the
payload's model field is the session's bound model. -/
theorem C4_session_model_is_bound (post : Post) (st : SessionTable)
    (cid msg : String) (ps : Params) (s : Session) (req : ProcessRequest) :
    (∀ r st', chat_message post st cid msg ps = (r, st') →
        (dictGet st' cid).map Session.model = (dictGet st cid).map Session.model)
    ∧ (truthy req.chat_id = true → ∀ m : String,
        process post st ⟨m, req.instruction, req.chat_id, req.parameters⟩
          = process post st req)
    ∧ (dictGet st cid = some s → (∀ kv ∈ ps, kv.1 ≠ "model") →
        dictGet (chatPayload s.model (s.messages ++ [⟨Role.user, .jstr msg⟩]) ps) "model"
          = some (.vstr s.model)) := by
  refine ⟨?_, ?_, ?_⟩
  · intro r st' h
    cases hs : dictGet st cid with
    | none =>
      rw [chat_message_not_found post st cid msg ps hs, Prod.mk.injEq] at h
      rw [← h.2, hs]
    | some s0 =>
      cases r with
      | ok v =>
        have hsh := chat_message_ok_shape post st cid msg ps s0 v st' hs h
        rw [hsh, dictGet_dictSet_self]
        simp
      | error e =>
        have hsh := (chat_message_error_shape post st cid msg ps s0 e st' hs h).2
        rw [hsh, dictGet_dictSet_self]
        simp
  · intro h m
    obtain ⟨m0, i0, c0, p0⟩ := req
    simp only [process, h, if_true]
  · intro hs hps
    rw [chatPayload, dictGet_dictMerge, lastVal_eq_none_of_keys_ne ps "model" hps]
    simp [chatCore, dictGet]

/-- Witness for C4: with a temperature-only parameters dict, the chat
payload's model field is the session's bound model. -/
theorem C4_witness :
    dictGet (chatPayload "m" ([] ++ [⟨Role.user, .jstr "hi"⟩])
        [("temperature", Value.vopaque 0)]) "model"
      = some (Value.vstr "m") := by
  have h := C4_session_model_is_bound (postDown "x") [("X", ⟨"m", []⟩)] "X" "hi"
    [("temperature", Value.vopaque 0)] ⟨"m", []⟩ ⟨"m", "hi", some "X", []⟩
  exact h.2.2 rfl (by decide)

/-- C6 as stated is false of the program: on a success status with the
parsable body whose "message"."content" field is a non-string JSON value
(modelled by the number `jother 0`), the source's untyped
`data.get("message", {}).get("content", "")` chain raises nothing — the
call SUCCEEDS, returns the non-text value and appends it as the assistant
turn, although no extracted text exists (the body is not well-formed as a
text reply), where the claim demands a `GatewayError`. -/
theorem C6_counterexample :
    chat_message postNonText [("X", (⟨"m", []⟩ : Session))] "X" "hi" []
      = (.ok (.jother 0),
         [("X", (⟨"m", [⟨Role.user, .jstr "hi"⟩, ⟨Role.assistant, .jother 0⟩]⟩ : Session))])
    ∧ isTextValue (.jother 0) = false :=
  ⟨rfl, rfl⟩

/-- C6 amended: the operations fail with a gateway error exactly when the
transport raises (timeout included), the daemon answers a non-2xx status,
the body does not parse as JSON, or the body's shape breaks the untyped
`.get` extraction chain (the parsed body is not an object, or a present
chat "message" field is not an object); the error carries the underlying
transport or status detail as text. On a success status otherwise the
call succeeds and returns the extracted VALUE — the "response" /
"message"."content" field when present, the empty-string default when
absent — which in general need not be text. Any error either operation
reports on a known session is a gateway error. -/
theorem C6_amended_gateway_errors (post : Post) (st : SessionTable)
    (model instr cid msg : String) (ps : Params) (s : Session)
    (hs : dictGet st cid = some s) :
    (∀ t, post (generatePayload model instr ps) = .error t →
        (single_query post st model instr ps).1
          = .error (.gatewayError ("Ollama API error: " ++ t)))
    ∧ (∀ resp, post (generatePayload model instr ps) = .ok resp →
        isSuccessStatus resp.status = false →
        (single_query post st model instr ps).1
          = .error (.gatewayError ("Ollama API error: " ++ statusDetail resp.status)))
    ∧ (∀ resp, post (generatePayload model instr ps) = .ok resp →
        isSuccessStatus resp.status = true → resp.body = none →
        (single_query post st model instr ps).1
          = .error (.gatewayError ("Ollama API error: JSONDecodeError")))
    ∧ (∀ resp data v, post (generatePayload model instr ps) = .ok resp →
        isSuccessStatus resp.status = true → resp.body = some data →
        extractGenerateValue data = .ok v →
        (single_query post st model instr ps).1 = .ok v)
    ∧ (∀ resp data d, post (generatePayload model instr ps) = .ok resp →
        isSuccessStatus resp.status = true → resp.body = some data →
        extractGenerateValue data = .error d →
        (single_query post st model instr ps).1
          = .error (.gatewayError ("Ollama API error: " ++ d)))
    ∧ (∀ e, (single_query post st model instr ps).1 = .error e →
        ∃ d, e = .gatewayError d)
    ∧ (∀ t, post (chatPayload s.model (s.messages ++ [⟨Role.user, .jstr msg⟩]) ps)
          = .error t →
        (chat_message post st cid msg ps).1
          = .error (.gatewayError ("Ollama chat API error: " ++ t)))
    ∧ (∀ resp, post (chatPayload s.model (s.messages ++ [⟨Role.user, .jstr msg⟩]) ps)
          = .ok resp →
        isSuccessStatus resp.status = false →
        (chat_message post st cid msg ps).1
          = .error (.gatewayError ("Ollama chat API error: " ++ statusDetail resp.status)))
    ∧ (∀ resp, post (chatPayload s.model (s.messages ++ [⟨Role.user, .jstr msg⟩]) ps)
          = .ok resp →
        isSuccessStatus resp.status = true → resp.body = none →
        (chat_message post st cid msg ps).1
          = .error (.gatewayError ("Ollama chat API error: JSONDecodeError")))
    ∧ (∀ resp data v, post (chatPayload s.model (s.messages ++ [⟨Role.user, .jstr msg⟩]) ps)
          = .ok resp →
        isSuccessStatus resp.status = true → resp.body = some data →
        extractChatValue data = .ok v →
        (chat_message post st cid msg ps).1 = .ok v)
    ∧ (∀ resp data d, post (chatPayload s.model (s.messages ++ [⟨Role.user, .jstr msg⟩]) ps)
          = .ok resp →
        isSuccessStatus resp.status = true → resp.body = some data →
        extractChatValue data = .error d →
        (chat_message post st cid msg ps).1
          = .error (.gatewayError ("Ollama chat API error: " ++ d)))
    ∧ (∀ e, (chat_message post st cid msg ps).1 = .error e →
        ∃ d, e = .gatewayError d) := by
  refine ⟨?_, ?_, ?_, ?_, ?_, ?_, ?_, ?_, ?_, ?_, ?_, ?_⟩
  · intro t ht
    rw [single_query_fst, pipeline_transport _ _ _ _ ht]
  · intro resp hr hst
    rw [single_query_fst, pipeline_status _ _ _ _ hr hst]
  · intro resp hr hst hb
    rw [single_query_fst, pipeline_nojson _ _ _ _ hr hst hb]
    rfl
  · intro resp data v hr hst hb hx
    rw [single_query_fst, pipeline_extract _ _ _ _ _ hr hst hb, hx]
  · intro resp data d hr hst hb hx
    rw [single_query_fst, pipeline_extract _ _ _ _ _ hr hst hb, hx]
  · intro e he
    rw [single_query_fst] at he
    cases hp : pipeline extractGenerateValue post (generatePayload model instr ps) with
    | ok r => rw [hp] at he; simp at he
    | error d =>
      rw [hp] at he
      simp only [Except.error.injEq] at he
      exact ⟨"Ollama API error: " ++ d, he.symm⟩
  · intro t ht
    rw [chat_message_fst post st cid msg ps s hs, pipeline_transport _ _ _ _ ht]
  · intro resp hr hst
    rw [chat_message_fst post st cid msg ps s hs, pipeline_status _ _ _ _ hr hst]
  · intro resp hr hst hb
    rw [chat_message_fst post st cid msg ps s hs, pipeline_nojson _ _ _ _ hr hst hb]
    rfl
  · intro resp data v hr hst hb hx
    rw [chat_message_fst post st cid msg ps s hs,
      pipeline_extract _ _ _ _ _ hr hst hb, hx]
  · intro resp data d hr hst hb hx
    rw [chat_message_fst post st cid msg ps s hs,
      pipeline_extract _ _ _ _ _ hr hst hb, hx]
  · intro e he
    rw [chat_message_fst post st cid msg ps s hs] at he
    cases hp : pipeline extractChatValue post
        (chatPayload s.model (s.messages ++ [⟨Role.user, .jstr msg⟩]) ps) with
    | ok r => rw [hp] at he; simp at he
    | error d =>
      rw [hp] at he
      simp only [Except.error.injEq] at he
      exact ⟨"Ollama chat API error: " ++ d, he.symm⟩

/-- Witness for C6: a transport failure makes `single_query` report a
gateway error carrying the transport detail. -/
theorem C6_witness :
    (single_query (postDown "boom") [("X", (⟨"m", []⟩ : Session))] "m" "q" []).1
      = .error (.gatewayError "Ollama API error: boom") := by
  have h := C6_amended_gateway_errors (postDown "boom")
    [("X", ⟨"m", []⟩)] "m" "q" "X" "hi" [] ⟨"m", []⟩ rfl
  exact h.1 "boom" rfl

end OllamaSuite
